import Mathlib

/-
Verification of the public-api aggregation core of the
simple-microservices-demo repository.

The Go source under public-api/internal is embedded shallowly:

* `User` and `Listing` mirror the client structs
  (public-api/internal/client/user_service_client.go and
  listing_service_client.go).
* `PublicListing` and `PublicListingsResponse` mirror the handler structs
  (public-api/internal/handler/handler.go).
* The fallible upstream calls are parameters: the page fetch
  `ListingServiceClient.GetListings` is an `Except String (List Listing)`
  and the per-user lookup `UserServiceClient.GetUserByID` is a function
  `Int → Except String (Option User)` (Go returns `(*User, error)`;
  `.ok none` is the 404 not-found path, `.ok (some u)` the found path,
  `.error e` any transport or protocol failure).
* The concurrent fan-out of GetPublicListings (one goroutine per distinct
  user id, results written into `userMap` under a mutex, failures sent to
  `errorsChan`, joined by `wg.Wait`) is embedded as `fanOut`, a fold over
  the list of distinct references in which each task contributes one
  atomic write; order-invariance over task completion order is proved
  separately by quantifying over permutations of that list.
Machine integers (int64) appear only as opaque identifiers and amounts,
never in overflowing arithmetic, so they are modelled by `Int`.
-/

/-- User mirrors the client.User struct of user_service_client.go. -/
structure User where
  id : Int
  name : String
  createdAt : Int
  updatedAt : Int
deriving DecidableEq

/-- Listing mirrors the client.Listing struct of listing_service_client.go. -/
structure Listing where
  id : Int
  userId : Int
  listingType : String
  price : Int
  createdAt : Int
  updatedAt : Int
deriving DecidableEq

/-- PublicListing mirrors handler.PublicListing: a listing with an optional
embedded user (`nil` pointer in Go is `none`). -/
structure PublicListing where
  id : Int
  listingType : String
  price : Int
  createdAt : Int
  updatedAt : Int
  user : Option User
deriving DecidableEq

/-- PublicListingsResponse mirrors handler.PublicListingsResponse. -/
structure PublicListingsResponse where
  result : Bool
  listings : List PublicListing
  error : String
deriving DecidableEq

/-- Result type of one GetUserByID call: `.error e` when the Go call returns
a non-nil error, `.ok none` when it returns `(nil, nil)` (HTTP 404 or a
response without a user), `.ok (some u)` when it returns the user. -/
abbrev LookupResult := Except String (Option User)

/-- Association-list lookup, the model of reading a Go map whose absent key
yields the zero value (nil pointer, hence `none`). -/
def assocLookup {α : Type} : List (Int × α) → Int → Option α
  | [], _ => none
  | (k, v) :: rest, r => if k = r then some v else assocLookup rest r

/-- The user a lookup result contributes to `userMap`: only a non-nil user
returned without error is stored (handler.go lines 177-188). -/
def foundUser : LookupResult → Option User
  | .ok (some u) => some u
  | .ok none => none
  | .error _ => none

/-- The error message a lookup result sends to `errorsChan`, if any. -/
def lookupError : LookupResult → Option String
  | .error e => some e
  | .ok _ => none

/-- Fan-out over the distinct user references (handler.go lines 167-193):
each reference is looked up once; a found user is inserted into the shared
`userMap`, a failed lookup records its message (the `errorsChan` entries),
and a not-found lookup records nothing.  Each task performs one atomic
write, so a completed execution is a fold over the task list. -/
def fanOut (lookup : Int → LookupResult) : List Int → List (Int × User) × List (Int × String)
  | [] => ([], [])
  | r :: rest =>
    match lookup r, fanOut lookup rest with
    | .ok (some u), acc => ((r, u) :: acc.1, acc.2)
    | .ok none, acc => acc
    | .error e, acc => (acc.1, (r, e) :: acc.2)

/-- Merge step (handler.go lines 209-221): one PublicListing per input
listing, in input order, embedding `userMap[listing.UserID]`. -/
def aggregate (userMap : List (Int × User)) (listings : List Listing) : List PublicListing :=
  listings.map (fun l =>
    { id := l.id
      listingType := l.listingType
      price := l.price
      createdAt := l.createdAt
      updatedAt := l.updatedAt
      user := assocLookup userMap l.userId })

/-- The distinct user references of a page, the model of the
`uniqueUserIDs` map built at handler.go lines 161-165. -/
def uniqueUserIDs (listings : List Listing) : List Int :=
  (listings.map (fun l => l.userId)).dedup

/-- GetPublicListings after query parsing (handler.go lines 147-223),
parameterised by the already-issued page fetch result and the user-lookup
oracle.  The second component is the list of user ids for which a GetUserByID
call is issued (one per goroutine spawned at lines 173-190). -/
def getPublicListings (fetch : Except String (List Listing))
    (lookup : Int → LookupResult) : PublicListingsResponse × List Int :=
  match fetch with
  | .error _ =>
      ({ result := false, listings := [], error := "Failed to retrieve listings" }, [])
  | .ok listings =>
      if listings.length = 0 then
        ({ result := true, listings := [], error := "" }, [])
      else
        let refs := uniqueUserIDs listings
        ({ result := true
           listings := aggregate (fanOut lookup refs).1 listings
           error := "" }, refs)

/-- The three-way per-reference outcome of the spec (Found / NotFound /
LookupFailed), read back from the resolver state: an entry in `userMap`
means Found, an entry in the error store means LookupFailed, neither
means NotFound. -/
inductive LookupOutcome where
  | found (u : User)
  | notFound
  | lookupFailed (cause : String)
deriving DecidableEq

/-- Outcome of one reference, read from the fan-out result
(`userMap`, error store). -/
def outcomeAt (fan : List (Int × User) × List (Int × String)) (r : Int) : LookupOutcome :=
  match assocLookup fan.1 r with
  | some u => .found u
  | none =>
    match assocLookup fan.2 r with
    | some e => .lookupFailed e
    | none => .notFound

/-- The accumulated reference-to-outcome mapping of one aggregation call:
one entry per task launched, read from the completed fan-out state. -/
def resolverOutcomes (lookup : Int → LookupResult) (refs : List Int) :
    List (Int × LookupOutcome) :=
  refs.map (fun r => (r, outcomeAt (fanOut lookup refs) r))

/-- Digit parsing loop of strconv.Atoi: every character must be a decimal
digit; the accumulated value is `acc * 10 + digit`. -/
def parseDigitsAux : List Char → Nat → Option Nat
  | [], acc => some acc
  | c :: cs, acc =>
    if c.isDigit then parseDigitsAux cs (acc * 10 + (c.toNat - 48)) else none

/-- Model of Go strconv.Atoi on a 64-bit platform: optional sign, at least
one decimal digit, no other characters, value within int64 range; `none`
is a non-nil error (syntax or range). -/
def atoi (s : String) : Option Int :=
  match s.toList with
  | [] => none
  | c :: cs =>
    let neg : Bool := c = Char.ofNat 45
    let digits : List Char := if c = Char.ofNat 45 ∨ c = Char.ofNat 43 then cs else c :: cs
    match digits with
    | [] => none
    | _ =>
      match parseDigitsAux digits 0 with
      | none => none
      | some n =>
        let v : Int := if neg then -(n : Int) else (n : Int)
        if v < -(2 ^ 63) ∨ (2 : Int) ^ 63 ≤ v then none else some v

/-- Query-parameter resolution of GetPublicListings (handler.go lines
133-145): page_num defaults to 1 and page_size to 10 whenever Atoi errors
or the parsed value is below 1. -/
def resolvePageParams (pageNumStr pageSizeStr : String) : Int × Int :=
  let pageNum : Int :=
    match atoi pageNumStr with
    | some n => if n < 1 then 1 else n
    | none => 1
  let pageSize : Int :=
    match atoi pageSizeStr with
    | some n => if n < 1 then 10 else n
    | none => 10
  (pageNum, pageSize)

/-- Full GetPublicListings including query parsing: the page fetch receives
exactly the resolved page number and page size. -/
def getPublicListingsFull (pageNumStr pageSizeStr : String)
    (fetch : Int → Int → Except String (List Listing))
    (lookup : Int → LookupResult) : PublicListingsResponse × List Int :=
  let p := resolvePageParams pageNumStr pageSizeStr
  getPublicListings (fetch p.1 p.2) lookup

/-- Body of a create-listing request (handler.go lines 92-96). -/
structure CreateListingRequest where
  userId : Int
  listingType : String
  price : Int
deriving DecidableEq

/-- Observable outcome of a create pass-through: rejected by validation
with an error message, failed upstream, or created. -/
inductive CreateOutcome (α : Type) where
  | validationFailed (msg : String)
  | upstreamFailed
  | created (a : α)
deriving DecidableEq

/-- CreatePublicListing after body decoding (handler.go lines 104-125),
parameterised by the upstream CreateListing call.  The second component
lists the upstream calls issued, with their arguments. -/
def createPublicListing (req : CreateListingRequest)
    (upstream : Int → String → Int → Except String Listing) :
    CreateOutcome Listing × List (Int × String × Int) :=
  if req.userId = 0 ∨ req.listingType = "" ∨ req.price ≤ 0 then
    (.validationFailed "User ID, listing type, and price are required and valid", [])
  else if req.listingType ≠ "rent" ∧ req.listingType ≠ "sale" then
    (.validationFailed "Listing type must be rent or sale", [])
  else
    match upstream req.userId req.listingType req.price with
    | .error _ => (.upstreamFailed, [(req.userId, req.listingType, req.price)])
    | .ok l => (.created l, [(req.userId, req.listingType, req.price)])

/-- CreatePublicUser after body decoding (handler.go lines 69-83),
parameterised by the upstream CreateUser call.  The second component lists
the upstream calls issued, with their argument. -/
def createPublicUser (name : String)
    (upstream : String → Except String User) :
    CreateOutcome User × List String :=
  if name = "" then
    (.validationFailed "User name is required", [])
  else
    match upstream name with
    | .error _ => (.upstreamFailed, [name])
    | .ok u => (.created u, [name])

/-- The outcome a lookup result denotes, stated directly on the oracle. -/
def oracleOutcome (res : LookupResult) : LookupOutcome :=
  match res with
  | .ok (some u) => .found u
  | .ok none => .notFound
  | .error e => .lookupFailed e

theorem fanOut_cons (lookup : Int → LookupResult) (a : Int) (rest : List Int) :
    fanOut lookup (a :: rest) =
      match lookup a with
      | .ok (some u) => ((a, u) :: (fanOut lookup rest).1, (fanOut lookup rest).2)
      | .ok none => fanOut lookup rest
      | .error e => ((fanOut lookup rest).1, (a, e) :: (fanOut lookup rest).2) := by
  cases h : lookup a with
  | error e => simp [fanOut, h]
  | ok ou => cases ou <;> simp [fanOut, h]

/-- Reading the shared user map after the fan-out completes: a reference
maps to the user its lookup found, and references outside the task list
are absent. -/
theorem assocLookup_fanOut_userMap (lookup : Int → LookupResult)
    (refs : List Int) (r : Int) :
    assocLookup (fanOut lookup refs).1 r =
      if r ∈ refs then foundUser (lookup r) else none := by
  induction refs with
  | nil => simp [fanOut, assocLookup]
  | cons a rest ih =>
    rw [fanOut_cons]
    by_cases har : a = r
    · subst har
      cases h : lookup a with
      | error e => simp [h, ih, assocLookup, foundUser]
      | ok ou => cases ou <;> simp [h, ih, assocLookup, foundUser]
    · cases h : lookup a with
      | error e => simp [h, ih, assocLookup, har, Ne.symm har]
      | ok ou => cases ou <;> simp [h, ih, assocLookup, har, Ne.symm har]

/-- Reading the error store after the fan-out completes: a reference maps
to its lookup failure message, and references outside the task list are
absent. -/
theorem assocLookup_fanOut_errors (lookup : Int → LookupResult)
    (refs : List Int) (r : Int) :
    assocLookup (fanOut lookup refs).2 r =
      if r ∈ refs then lookupError (lookup r) else none := by
  induction refs with
  | nil => simp [fanOut, assocLookup]
  | cons a rest ih =>
    rw [fanOut_cons]
    by_cases har : a = r
    · subst har
      cases h : lookup a with
      | error e => simp [h, ih, assocLookup, lookupError]
      | ok ou => cases ou <;> simp [h, ih, assocLookup, lookupError]
    · cases h : lookup a with
      | error e => simp [h, ih, assocLookup, har, Ne.symm har]
      | ok ou => cases ou <;> simp [h, ih, assocLookup, har, Ne.symm har]

/-- Every reference the fan-out was launched on ends with the outcome its
own lookup produced, regardless of the other tasks. -/
theorem outcomeAt_fanOut (lookup : Int → LookupResult) (refs : List Int)
    (r : Int) (h : r ∈ refs) :
    outcomeAt (fanOut lookup refs) r = oracleOutcome (lookup r) := by
  unfold outcomeAt
  rw [assocLookup_fanOut_userMap, assocLookup_fanOut_errors, if_pos h, if_pos h]
  cases hl : lookup r with
  | error e => simp [foundUser, lookupError, oracleOutcome]
  | ok ou => cases ou <;> simp [foundUser, lookupError, oracleOutcome]

theorem aggregate_length (m : List (Int × User)) (ls : List Listing) :
    (aggregate m ls).length = ls.length := by
  simp [aggregate]

theorem aggregate_getElem (m : List (Int × User)) (ls : List Listing)
    (i : Nat) (h : i < ls.length) (h2 : i < (aggregate m ls).length) :
    (aggregate m ls)[i] =
      { id := ls[i].id
        listingType := ls[i].listingType
        price := ls[i].price
        createdAt := ls[i].createdAt
        updatedAt := ls[i].updatedAt
        user := assocLookup m ls[i].userId } := by
  simp [aggregate]

theorem getPublicListings_ok (listings : List Listing)
    (lookup : Int → LookupResult) (h : listings ≠ []) :
    getPublicListings (.ok listings) lookup =
      ({ result := true
         listings := aggregate (fanOut lookup (uniqueUserIDs listings)).1 listings
         error := "" }, uniqueUserIDs listings) := by
  simp [getPublicListings, List.length_eq_zero, h]

/-- C1: for every listing page returned by the page fetch, the aggregation
output has exactly the length of the input page, and the i-th output
carries the i-th input listing's identifier, listing type, price and
timestamps: the merge never drops, reorders, or duplicates a listing. -/
theorem merge_preserves_page (listings : List Listing) (lookup : Int → LookupResult) :
    (getPublicListings (.ok listings) lookup).1.listings.length = listings.length ∧
    ∀ i (h1 : i < listings.length)
      (h2 : i < (getPublicListings (.ok listings) lookup).1.listings.length),
      (getPublicListings (.ok listings) lookup).1.listings[i].id = listings[i].id ∧
      (getPublicListings (.ok listings) lookup).1.listings[i].listingType =
        listings[i].listingType ∧
      (getPublicListings (.ok listings) lookup).1.listings[i].price = listings[i].price ∧
      (getPublicListings (.ok listings) lookup).1.listings[i].createdAt =
        listings[i].createdAt ∧
      (getPublicListings (.ok listings) lookup).1.listings[i].updatedAt =
        listings[i].updatedAt := by
  by_cases hnil : listings = []
  · subst hnil
    simp [getPublicListings]
  · rw [getPublicListings_ok listings lookup hnil]
    refine ⟨aggregate_length _ _, fun i h1 h2 => ?_⟩
    rw [aggregate_getElem _ _ i h1 h2]
    exact ⟨rfl, rfl, rfl, rfl, rfl⟩

/-- C1 witness: the merge property instantiated on a concrete two-listing
page at position 0. -/
theorem merge_preserves_page_witness :
    (getPublicListings (.ok
      [ { id := 1, userId := 5, listingType := "rent", price := 10,
          createdAt := 100, updatedAt := 101 },
        { id := 2, userId := 9, listingType := "sale", price := 20,
          createdAt := 200, updatedAt := 201 } ])
      (fun _ => .ok none)).1.listings.length = 2 ∧
    (getPublicListings (.ok
      [ { id := 1, userId := 5, listingType := "rent", price := 10,
          createdAt := 100, updatedAt := 101 },
        { id := 2, userId := 9, listingType := "sale", price := 20,
          createdAt := 200, updatedAt := 201 } ])
      (fun _ => .ok none)).1.listings[0].id = 1 := by
  have h := merge_preserves_page
    [ { id := 1, userId := 5, listingType := "rent", price := 10,
        createdAt := 100, updatedAt := 101 },
      { id := 2, userId := 9, listingType := "sale", price := 20,
        createdAt := 200, updatedAt := 201 } ]
    (fun _ => .ok none)
  exact ⟨h.1, ((h.2 0 (by decide) (by rw [h.1]; decide)).1).trans (by decide)⟩

/-- C2: when the page fetch succeeds, per-reference lookup outcomes never
fail the request: the response result is true, each listing whose
reference resolved to a found user embeds exactly that user, and a listing
lacks an embed exactly when its lookup returned not-found or an error. -/
theorem lookup_failures_absorbed (listings : List Listing) (lookup : Int → LookupResult) :
    (getPublicListings (.ok listings) lookup).1.result = true ∧
    ∀ i (h1 : i < listings.length)
      (h2 : i < (getPublicListings (.ok listings) lookup).1.listings.length),
      (getPublicListings (.ok listings) lookup).1.listings[i].user =
        foundUser (lookup listings[i].userId) ∧
      (∀ u, (getPublicListings (.ok listings) lookup).1.listings[i].user = some u ↔
        lookup listings[i].userId = .ok (some u)) ∧
      ((getPublicListings (.ok listings) lookup).1.listings[i].user = none ↔
        (lookup listings[i].userId = .ok none ∨
         ∃ e, lookup listings[i].userId = .error e)) := by
  by_cases hnil : listings = []
  · subst hnil
    refine ⟨by simp [getPublicListings], fun i h1 h2 => absurd h1 (by simp)⟩
  · rw [getPublicListings_ok listings lookup hnil]
    refine ⟨rfl, fun i h1 h2 => ?_⟩
    rw [aggregate_getElem _ _ i h1 h2]
    have hmem : listings[i].userId ∈ uniqueUserIDs listings := by
      unfold uniqueUserIDs
      rw [List.mem_dedup]
      exact List.mem_map_of_mem (fun l => l.userId) (listings.getElem_mem h1)
    rw [assocLookup_fanOut_userMap, if_pos hmem]
    refine ⟨rfl, ?_, ?_⟩
    · intro u
      cases hl : lookup listings[i].userId with
      | error e => simp [foundUser]
      | ok ou => cases ou <;> simp [foundUser]
    · cases hl : lookup listings[i].userId with
      | error e => simp [foundUser]
      | ok ou => cases ou <;> simp [foundUser]

/-- C2 witness: on the spec's scenario page (users 5 found, 9 failing) the
request succeeds, listing 0 embeds user 5 and listing 2 has no embed. -/
theorem lookup_failures_absorbed_witness :
    (getPublicListings (.ok
      [ { id := 1, userId := 5, listingType := "rent", price := 10,
          createdAt := 0, updatedAt := 0 },
        { id := 3, userId := 9, listingType := "sale", price := 10,
          createdAt := 0, updatedAt := 0 } ])
      (fun r => if r = 5
        then .ok (some { id := 5, name := "A", createdAt := 0, updatedAt := 0 })
        else .error "timeout")).1.result = true ∧
    (getPublicListings (.ok
      [ { id := 1, userId := 5, listingType := "rent", price := 10,
          createdAt := 0, updatedAt := 0 },
        { id := 3, userId := 9, listingType := "sale", price := 10,
          createdAt := 0, updatedAt := 0 } ])
      (fun r => if r = 5
        then .ok (some { id := 5, name := "A", createdAt := 0, updatedAt := 0 })
        else .error "timeout")).1.listings[0].user =
      some { id := 5, name := "A", createdAt := 0, updatedAt := 0 } ∧
    (getPublicListings (.ok
      [ { id := 1, userId := 5, listingType := "rent", price := 10,
          createdAt := 0, updatedAt := 0 },
        { id := 3, userId := 9, listingType := "sale", price := 10,
          createdAt := 0, updatedAt := 0 } ])
      (fun r => if r = 5
        then .ok (some { id := 5, name := "A", createdAt := 0, updatedAt := 0 })
        else .error "timeout")).1.listings[1].user = none := by
  have h := lookup_failures_absorbed
    [ { id := 1, userId := 5, listingType := "rent", price := 10,
        createdAt := 0, updatedAt := 0 },
      { id := 3, userId := 9, listingType := "sale", price := 10,
        createdAt := 0, updatedAt := 0 } ]
    (fun r => if r = 5
      then .ok (some { id := 5, name := "A", createdAt := 0, updatedAt := 0 })
      else .error "timeout")
  refine ⟨h.1, ?_, ?_⟩
  · rw [(h.2 0 (by decide) (by decide)).1]
    rfl
  · rw [(h.2 1 (by decide) (by decide)).1]
    rfl

/-- C5: when the page fetch itself fails, the response has result false
and a non-empty error string, no listings, and no user lookups issued. -/
theorem fetch_failure_response (e : String) (lookup : Int → LookupResult) :
    (getPublicListings (.error e) lookup).1.result = false ∧
    (getPublicListings (.error e) lookup).1.error ≠ "" ∧
    (getPublicListings (.error e) lookup).1.listings = [] ∧
    (getPublicListings (.error e) lookup).2 = [] := by
  refine ⟨rfl, ?_, rfl, rfl⟩
  show ("Failed to retrieve listings" : String) ≠ ""
  decide

/-- C5 witness: a concrete failing fetch yields a failure response with a
non-empty error and no lookup calls. -/
theorem fetch_failure_response_witness :
    (getPublicListings (.error "connection refused") (fun _ => .ok none)).1.result = false ∧
    (getPublicListings (.error "connection refused") (fun _ => .ok none)).1.error ≠ "" ∧
    (getPublicListings (.error "connection refused") (fun _ => .ok none)).2 = [] := by
  have h := fetch_failure_response "connection refused" (fun _ => .ok none)
  exact ⟨h.1, h.2.1, h.2.2.2⟩

/-- C6: when the page fetch succeeds with zero listings, the response has
result true, an empty enriched sequence, and no user lookups issued. -/
theorem empty_page_response (lookup : Int → LookupResult) :
    (getPublicListings (.ok []) lookup).1.result = true ∧
    (getPublicListings (.ok []) lookup).1.listings = [] ∧
    (getPublicListings (.ok []) lookup).2 = [] := by
  exact ⟨rfl, rfl, rfl⟩

theorem uniqueUserIDs_length (listings : List Listing) :
    (uniqueUserIDs listings).length =
      (listings.map (fun l => l.userId)).toFinset.card := by
  unfold uniqueUserIDs
  exact (List.card_toFinset _).symm

theorem getPublicListings_user_field (listings : List Listing)
    (lookup : Int → LookupResult) (hnil : listings ≠ []) (i : Nat)
    (h1 : i < listings.length)
    (h2 : i < (getPublicListings (.ok listings) lookup).1.listings.length) :
    (getPublicListings (.ok listings) lookup).1.listings[i].user =
      foundUser (lookup listings[i].userId) := by
  simp only [getPublicListings_ok listings lookup hnil] at h2 ⊢
  rw [aggregate_getElem _ _ i h1 h2]
  have hmem : listings[i].userId ∈ uniqueUserIDs listings := by
    unfold uniqueUserIDs
    rw [List.mem_dedup]
    exact List.mem_map_of_mem (fun l => l.userId) (listings.getElem_mem h1)
  rw [assocLookup_fanOut_userMap, if_pos hmem]

/-- C3: once all fan-out tasks of one aggregation call finish, the
accumulated reference-to-outcome mapping has exactly one entry per
distinct user reference of the page, and each entry is the outcome the
reference's own lookup produced (Found, NotFound or LookupFailed). -/
theorem resolver_outcomes_exact (listings : List Listing)
    (lookup : Int → LookupResult) :
    ((resolverOutcomes lookup (uniqueUserIDs listings)).map Prod.fst).Nodup ∧
    (∀ r, (∃ o, (r, o) ∈ resolverOutcomes lookup (uniqueUserIDs listings)) ↔
       r ∈ listings.map (fun l => l.userId)) ∧
    (∀ r o, (r, o) ∈ resolverOutcomes lookup (uniqueUserIDs listings) →
       o = oracleOutcome (lookup r)) := by
  refine ⟨?_, ?_, ?_⟩
  · have : (resolverOutcomes lookup (uniqueUserIDs listings)).map Prod.fst =
        uniqueUserIDs listings := by
      simp [resolverOutcomes, Function.comp_def]
    rw [this]
    exact List.nodup_dedup _
  · intro r
    constructor
    · rintro ⟨o, ho⟩
      simp only [resolverOutcomes, List.mem_map] at ho
      obtain ⟨x, hx, hxe⟩ := ho
      obtain ⟨rfl, -⟩ := Prod.mk.injEq .. ▸ hxe
      exact (List.mem_dedup).1 hx
    · intro hr
      refine ⟨outcomeAt (fanOut lookup (uniqueUserIDs listings)) r, ?_⟩
      simp only [resolverOutcomes, List.mem_map]
      exact ⟨r, (List.mem_dedup).2 hr, rfl⟩
  · intro r o ho
    simp only [resolverOutcomes, List.mem_map] at ho
    obtain ⟨x, hx, hxe⟩ := ho
    obtain ⟨rfl, rfl⟩ := Prod.mk.injEq .. ▸ hxe
    exact (outcomeAt_fanOut lookup (uniqueUserIDs listings) x hx).symm ▸
      (outcomeAt_fanOut lookup (uniqueUserIDs listings) x hx)

/-- C4: a page of N listings with M distinct user references issues
exactly M lookup calls (one per distinct reference, no duplicates, none
missed), and listings sharing a reference embed the same resolved user. -/
theorem dedup_lookup_calls (listings : List Listing)
    (lookup : Int → LookupResult) (h : listings ≠ []) :
    (getPublicListings (.ok listings) lookup).2.Nodup ∧
    (∀ r, r ∈ (getPublicListings (.ok listings) lookup).2 ↔
       r ∈ listings.map (fun l => l.userId)) ∧
    (getPublicListings (.ok listings) lookup).2.length =
      (listings.map (fun l => l.userId)).toFinset.card ∧
    ∀ i j (hi : i < listings.length) (hj : j < listings.length)
      (hi2 : i < (getPublicListings (.ok listings) lookup).1.listings.length)
      (hj2 : j < (getPublicListings (.ok listings) lookup).1.listings.length),
      listings[i].userId = listings[j].userId →
      (getPublicListings (.ok listings) lookup).1.listings[i].user =
        (getPublicListings (.ok listings) lookup).1.listings[j].user := by
  refine ⟨?_, ?_, ?_, ?_⟩
  · rw [getPublicListings_ok listings lookup h]
    exact List.nodup_dedup _
  · intro r
    rw [getPublicListings_ok listings lookup h]
    exact List.mem_dedup
  · rw [getPublicListings_ok listings lookup h]
    exact uniqueUserIDs_length listings
  · intro i j hi hj hi2 hj2 hij
    rw [getPublicListings_user_field listings lookup h i hi hi2,
      getPublicListings_user_field listings lookup h j hj hj2, hij]

/-- C4 witness: three listings over two distinct references issue exactly
two lookup calls, and the two listings sharing reference 5 embed the same
user. -/
theorem dedup_lookup_calls_witness :
    (getPublicListings (.ok
      [ { id := 1, userId := 5, listingType := "rent", price := 10,
          createdAt := 0, updatedAt := 0 },
        { id := 2, userId := 5, listingType := "rent", price := 10,
          createdAt := 0, updatedAt := 0 },
        { id := 3, userId := 9, listingType := "sale", price := 10,
          createdAt := 0, updatedAt := 0 } ])
      (fun r => .ok (some { id := r, name := "A", createdAt := 0, updatedAt := 0 }))).2.length = 2 ∧
    (getPublicListings (.ok
      [ { id := 1, userId := 5, listingType := "rent", price := 10,
          createdAt := 0, updatedAt := 0 },
        { id := 2, userId := 5, listingType := "rent", price := 10,
          createdAt := 0, updatedAt := 0 },
        { id := 3, userId := 9, listingType := "sale", price := 10,
          createdAt := 0, updatedAt := 0 } ])
      (fun r => .ok (some { id := r, name := "A", createdAt := 0, updatedAt := 0 }))).1.listings[0].user =
    (getPublicListings (.ok
      [ { id := 1, userId := 5, listingType := "rent", price := 10,
          createdAt := 0, updatedAt := 0 },
        { id := 2, userId := 5, listingType := "rent", price := 10,
          createdAt := 0, updatedAt := 0 },
        { id := 3, userId := 9, listingType := "sale", price := 10,
          createdAt := 0, updatedAt := 0 } ])
      (fun r => .ok (some { id := r, name := "A", createdAt := 0, updatedAt := 0 }))).1.listings[1].user := by
  have h := dedup_lookup_calls
    [ { id := 1, userId := 5, listingType := "rent", price := 10,
        createdAt := 0, updatedAt := 0 },
      { id := 2, userId := 5, listingType := "rent", price := 10,
        createdAt := 0, updatedAt := 0 },
      { id := 3, userId := 9, listingType := "sale", price := 10,
        createdAt := 0, updatedAt := 0 } ]
    (fun r => .ok (some { id := r, name := "A", createdAt := 0, updatedAt := 0 }))
    (by decide)
  refine ⟨?_, h.2.2.2 0 1 (by decide) (by decide) (by decide) (by decide) rfl⟩
  rw [h.2.2.1]
  decide

/-- C7: modelling each mutex-guarded write as one atomic insertion and the
WaitGroup join as completing every task, the fan-out launches exactly one
task per distinct user reference, and the final shared state is the same
for every task completion order: no entry is lost and every reference
ends with its own lookup's outcome, even when other lookups fail. -/
theorem fanout_order_invariant (lookup : Int → LookupResult)
    (listings : List Listing) (order : List Int)
    (hperm : order.Perm (uniqueUserIDs listings)) :
    order.length = (listings.map (fun l => l.userId)).toFinset.card ∧
    (∀ r, assocLookup (fanOut lookup order).1 r =
       assocLookup (fanOut lookup (uniqueUserIDs listings)).1 r) ∧
    (∀ r, assocLookup (fanOut lookup order).2 r =
       assocLookup (fanOut lookup (uniqueUserIDs listings)).2 r) ∧
    (∀ r, r ∈ uniqueUserIDs listings →
       outcomeAt (fanOut lookup order) r = oracleOutcome (lookup r)) := by
  refine ⟨?_, ?_, ?_, ?_⟩
  · rw [hperm.length_eq]
    exact uniqueUserIDs_length listings
  · intro r
    rw [assocLookup_fanOut_userMap, assocLookup_fanOut_userMap]
    by_cases hr : r ∈ uniqueUserIDs listings
    · rw [if_pos hr, if_pos (hperm.mem_iff.2 hr)]
    · rw [if_neg hr, if_neg (fun hc => hr (hperm.mem_iff.1 hc))]
  · intro r
    rw [assocLookup_fanOut_errors, assocLookup_fanOut_errors]
    by_cases hr : r ∈ uniqueUserIDs listings
    · rw [if_pos hr, if_pos (hperm.mem_iff.2 hr)]
    · rw [if_neg hr, if_neg (fun hc => hr (hperm.mem_iff.1 hc))]
  · intro r hr
    exact outcomeAt_fanOut lookup order r (hperm.mem_iff.2 hr)

/-- C7 witness: the invariance instantiated on a two-reference page with
the two task completion orders swapped and one lookup failing. -/
theorem fanout_order_invariant_witness :
    assocLookup (fanOut
      (fun r => if r = 5
        then .ok (some { id := 5, name := "A", createdAt := 0, updatedAt := 0 })
        else .error "timeout")
      [9, 5]).1 5 =
    assocLookup (fanOut
      (fun r => if r = 5
        then .ok (some { id := 5, name := "A", createdAt := 0, updatedAt := 0 })
        else .error "timeout")
      (uniqueUserIDs
        [ { id := 1, userId := 5, listingType := "rent", price := 10,
            createdAt := 0, updatedAt := 0 },
          { id := 3, userId := 9, listingType := "sale", price := 10,
            createdAt := 0, updatedAt := 0 } ])).1 5 ∧
    outcomeAt (fanOut
      (fun r => if r = 5
        then .ok (some { id := 5, name := "A", createdAt := 0, updatedAt := 0 })
        else .error "timeout")
      [9, 5]) 9 = .lookupFailed "timeout" := by
  have h := fanout_order_invariant
    (fun r => if r = 5
      then .ok (some { id := 5, name := "A", createdAt := 0, updatedAt := 0 })
      else .error "timeout")
    [ { id := 1, userId := 5, listingType := "rent", price := 10,
        createdAt := 0, updatedAt := 0 },
      { id := 3, userId := 9, listingType := "sale", price := 10,
        createdAt := 0, updatedAt := 0 } ]
    [9, 5] (by decide)
  exact ⟨h.2.1 5, (h.2.2.2 9 (by decide)).trans rfl⟩

/-- C3 witness: the outcome mapping on the spec's scenario page contains
exactly the entries for references 5 and 9, with user 5 found and the
lookup of user 9 failed. -/
theorem resolver_outcomes_exact_witness :
    (5 ∈ List.map (fun l => l.userId)
      [ ({ id := 1, userId := 5, listingType := "rent", price := 10,
           createdAt := 0, updatedAt := 0 } : Listing),
        { id := 3, userId := 9, listingType := "sale", price := 10,
          createdAt := 0, updatedAt := 0 } ]) ∧
    (∃ o, (5, o) ∈ resolverOutcomes
      (fun r => if r = 5
        then .ok (some { id := 5, name := "A", createdAt := 0, updatedAt := 0 })
        else .error "timeout")
      (uniqueUserIDs
        [ { id := 1, userId := 5, listingType := "rent", price := 10,
            createdAt := 0, updatedAt := 0 },
          { id := 3, userId := 9, listingType := "sale", price := 10,
            createdAt := 0, updatedAt := 0 } ])) := by
  have h := resolver_outcomes_exact
    [ { id := 1, userId := 5, listingType := "rent", price := 10,
        createdAt := 0, updatedAt := 0 },
      { id := 3, userId := 9, listingType := "sale", price := 10,
        createdAt := 0, updatedAt := 0 } ]
    (fun r => if r = 5
      then .ok (some { id := 5, name := "A", createdAt := 0, updatedAt := 0 })
      else .error "timeout")
  refine ⟨by decide, (h.2.1 5).2 (by decide)⟩

/-- C8: the create pass-throughs reject invalid input with a validation
failure before any upstream call (empty user name; listing with user id 0,
category outside rent and sale, or non-positive price), and on valid input
issue exactly one upstream call and return its result unchanged. -/
theorem create_validation_passthrough (req : CreateListingRequest)
    (upL : Int → String → Int → Except String Listing)
    (name : String) (upU : String → Except String User) :
    ((name = "" →
        createPublicUser name upU = (.validationFailed "User name is required", [])) ∧
     (name ≠ "" →
        createPublicUser name upU =
          match upU name with
          | .error _ => (.upstreamFailed, [name])
          | .ok u => (.created u, [name]))) ∧
    ((req.userId = 0 ∨ req.listingType ∉ (["rent", "sale"] : List String) ∨
        req.price ≤ 0 →
        ∃ msg, createPublicListing req upL = (.validationFailed msg, [])) ∧
     (req.userId ≠ 0 ∧ req.listingType ∈ (["rent", "sale"] : List String) ∧
        0 < req.price →
        createPublicListing req upL =
          match upL req.userId req.listingType req.price with
          | .error _ => (.upstreamFailed, [(req.userId, req.listingType, req.price)])
          | .ok l => (.created l, [(req.userId, req.listingType, req.price)]))) := by
  refine ⟨⟨?_, ?_⟩, ?_, ?_⟩
  · intro hn
    simp [createPublicUser, hn]
  · intro hn
    simp only [createPublicUser, if_neg hn]
  · intro hbad
    unfold createPublicListing
    by_cases h0 : req.userId = 0 ∨ req.listingType = "" ∨ req.price ≤ 0
    · rw [if_pos h0]
      exact ⟨_, rfl⟩
    · rw [if_neg h0]
      push_neg at h0
      have htype : req.listingType ∉ (["rent", "sale"] : List String) := by
        rcases hbad with h | h | h
        · exact absurd h h0.1
        · exact h
        · exact absurd h (not_le.2 h0.2.2)
      have hne : req.listingType ≠ "rent" ∧ req.listingType ≠ "sale" := by
        constructor
        · intro hc
          exact htype (by rw [hc]; simp)
        · intro hc
          exact htype (by rw [hc]; simp)
      rw [if_pos hne]
      exact ⟨_, rfl⟩
  · rintro ⟨h0, htype, hp⟩
    have hne : req.listingType ≠ "" := by
      intro hc
      rw [hc] at htype
      simp at htype
    have hcond : ¬(req.userId = 0 ∨ req.listingType = "" ∨ req.price ≤ 0) := by
      push_neg
      exact ⟨h0, hne, hp⟩
    unfold createPublicListing
    rw [if_neg hcond]
    have hrs : ¬(req.listingType ≠ "rent" ∧ req.listingType ≠ "sale") := by
      simp only [List.mem_cons, List.mem_singleton] at htype
      rcases htype with h | h | h
      · exact fun hc => hc.1 h
      · exact fun hc => hc.2 h
      · exact absurd h (List.not_mem_nil _)
    rw [if_neg hrs]

/-- C8 witness: an empty user name is rejected without an upstream call,
and a valid listing request with an upstream success returns the created
listing with exactly one upstream call. -/
theorem create_validation_passthrough_witness :
    createPublicUser ""
      (fun n => .ok { id := 1, name := n, createdAt := 0, updatedAt := 0 }) =
      (.validationFailed "User name is required", []) ∧
    createPublicListing { userId := 7, listingType := "rent", price := 3 }
      (fun u t p => .ok { id := 42, userId := u, listingType := t, price := p,
                          createdAt := 0, updatedAt := 0 }) =
      (.created { id := 42, userId := 7, listingType := "rent", price := 3,
                  createdAt := 0, updatedAt := 0 }, [(7, "rent", 3)]) := by
  have h := create_validation_passthrough
    { userId := 7, listingType := "rent", price := 3 }
    (fun u t p => .ok { id := 42, userId := u, listingType := t, price := p,
                        createdAt := 0, updatedAt := 0 })
    ""
    (fun n => .ok { id := 1, name := n, createdAt := 0, updatedAt := 0 })
  exact ⟨h.1.1 rfl, (h.2.2 ⟨by decide, by decide, by decide⟩).trans rfl⟩

/-- C9: the page parameters handed to the listing page fetch are the
requested page number when it parses to an integer at least 1 and 1
otherwise, and the requested page size when it parses to an integer at
least 1 and 10 otherwise (including the unset, empty-string case). -/
theorem pagination_param_resolution (pns pss : String) :
    (∀ n, atoi pns = some n → 1 ≤ n → (resolvePageParams pns pss).1 = n) ∧
    (atoi pns = none ∨ (∃ n, atoi pns = some n ∧ n < 1) →
       (resolvePageParams pns pss).1 = 1) ∧
    (∀ n, atoi pss = some n → 1 ≤ n → (resolvePageParams pns pss).2 = n) ∧
    (atoi pss = none ∨ (∃ n, atoi pss = some n ∧ n < 1) →
       (resolvePageParams pns pss).2 = 10) ∧
    atoi "" = none ∧
    (∀ fetch lookup, getPublicListingsFull pns pss fetch lookup =
       getPublicListings
         (fetch (resolvePageParams pns pss).1 (resolvePageParams pns pss).2)
         lookup) := by
  refine ⟨?_, ?_, ?_, ?_, rfl, fun fetch lookup => rfl⟩
  · intro n hn h1
    simp [resolvePageParams, hn, not_lt.2 h1]
  · rintro (hn | ⟨n, hn, hlt⟩)
    · simp [resolvePageParams, hn]
    · simp [resolvePageParams, hn, hlt]
  · intro n hn h1
    simp [resolvePageParams, hn, not_lt.2 h1]
  · rintro (hn | ⟨n, hn, hlt⟩)
    · simp [resolvePageParams, hn]
    · simp [resolvePageParams, hn, hlt]

/-- C9 witness: page_num 3 with an unparsable page_size resolves to page
number 3 and the default page size 10; page_num 0 defaults to 1. -/
theorem pagination_param_resolution_witness :
    resolvePageParams "3" "abc" = (3, 10) ∧ resolvePageParams "0" "2" = (1, 2) := by
  have h1 := pagination_param_resolution "3" "abc"
  have h2 := pagination_param_resolution "0" "2"
  refine ⟨?_, ?_⟩
  · have ha := h1.1 3 (by decide) (by decide)
    have hb := h1.2.2.2.1 (Or.inl (by decide))
    exact Prod.ext ha hb
  · have ha := h2.2.1 (Or.inr ⟨0, by decide, by decide⟩)
    have hb := h2.2.2.1 2 (by decide) (by decide)
    exact Prod.ext ha hb

/-- C10: the missing-user-reference check of CreatePublicListing fires
exactly at user id 0: any strictly negative user id with a valid listing
type and positive price passes validation and the upstream create call is
issued with that negative identifier. -/
theorem negative_user_id_passes_validation (uid : Int) (t : String) (p : Int)
    (upL : Int → String → Int → Except String Listing)
    (hneg : uid < 0) (ht : t = "rent" ∨ t = "sale") (hp : 0 < p) :
    (createPublicListing { userId := uid, listingType := t, price := p } upL).2 =
      [(uid, t, p)] ∧
    (∀ msg l, createPublicListing { userId := uid, listingType := t, price := p } upL ≠
       (.validationFailed msg, l)) ∧
    ∀ t2 p2 (upL2 : Int → String → Int → Except String Listing),
      t2 = "rent" ∨ t2 = "sale" → 0 < p2 →
      ∃ msg, createPublicListing { userId := 0, listingType := t2, price := p2 } upL2 =
        (.validationFailed msg, []) := by
  have hne : t ≠ "" := by
    rcases ht with h | h <;> simp [h]
  have hcond : ¬((uid : Int) = 0 ∨ t = "" ∨ p ≤ 0) := by
    push_neg
    exact ⟨ne_of_lt hneg, hne, hp⟩
  have hrs : ¬(t ≠ "rent" ∧ t ≠ "sale") := by
    rcases ht with h | h
    · exact fun hc => hc.1 h
    · exact fun hc => hc.2 h
  refine ⟨?_, ?_, ?_⟩
  · unfold createPublicListing
    rw [if_neg hcond, if_neg hrs]
    cases upL uid t p <;> rfl
  · intro msg l
    unfold createPublicListing
    rw [if_neg hcond, if_neg hrs]
    cases upL uid t p <;> simp
  · intro t2 p2 upL2 ht2 hp2
    unfold createPublicListing
    rw [if_pos (Or.inl rfl)]
    exact ⟨_, rfl⟩

/-- C10 witness: user id -4 with type rent and price 3 issues the upstream
call with -4, while user id 0 is rejected by validation. -/
theorem negative_user_id_passes_validation_witness :
    (createPublicListing { userId := -4, listingType := "rent", price := 3 }
      (fun u t p => .ok { id := 1, userId := u, listingType := t, price := p,
                          createdAt := 0, updatedAt := 0 })).2 = [(-4, "rent", 3)] ∧
    ∃ msg, createPublicListing { userId := 0, listingType := "rent", price := 3 }
      (fun u t p => .ok { id := 1, userId := u, listingType := t, price := p,
                          createdAt := 0, updatedAt := 0 }) =
      (.validationFailed msg, []) := by
  have h := negative_user_id_passes_validation (-4) "rent" 3
    (fun u t p => .ok { id := 1, userId := u, listingType := t, price := p,
                        createdAt := 0, updatedAt := 0 })
    (by decide) (Or.inl rfl) (by decide)
  exact ⟨h.1, h.2.2 "rent" 3 _ (Or.inl rfl) (by decide)⟩
